import Mathlib

/-!
Verification development for the Foodify storefront core: the cart store
(`cartSlice.js`), the catalog store (`productSlice.js`), the checkout
sequencer (`Checkout.jsx` together with `StripeCheckout.jsx`), and the
session state handled in `Navbar.jsx`.  Each definition is a shallow
embedding of the corresponding JavaScript function; monetary values are
rationals, quantities are naturals, and the browser key-value storage is a
partial map from keys to strings.
-/

/-- A catalog item as dispatched to the cart: the fields of the payload the
reducers read (`_id`, `name`, `price`); further fields are never inspected
by the cart logic. -/
structure Item where
  _id : String
  name : String
  price : ℚ
deriving DecidableEq, Repr

/-- One cart line: the denormalized copy of the item fields plus a
quantity, mirroring the objects stored in `state.cart`. -/
structure CartLine where
  _id : String
  name : String
  price : ℚ
  quantity : ℕ
deriving DecidableEq, Repr

/-- The line pushed for a fresh item: `{ ...action.payload, quantity: 1 }`. -/
def newCartLine (item : Item) : CartLine :=
  ⟨item._id, item.name, item.price, 1⟩

/-- The `addToCart` reducer from `cartSlice.js`: find the first line with the
`_id` of the payload; if present increment its quantity by 1, otherwise push a
new line with quantity 1 at the end. -/
def addToCart : List CartLine → Item → List CartLine
  | [], item => [newCartLine item]
  | l :: ls, item =>
    if l._id = item._id then { l with quantity := l.quantity + 1 } :: ls
    else l :: addToCart ls item

/-- The `removeFromCart` reducer: keep every line whose `_id` differs from the
payload. -/
def removeFromCart (cart : List CartLine) (id : String) : List CartLine :=
  cart.filter (fun l => l._id ≠ id)

/-- Helper for `decreaseQuantity`: decrement the quantity of the first line
matching the id (this is the line that `find` located and mutated
in place). -/
def decrementFirst : List CartLine → String → List CartLine
  | [], _ => []
  | l :: ls, id =>
    if l._id = id then { l with quantity := l.quantity - 1 } :: ls
    else l :: decrementFirst ls id

/-- The `decreaseQuantity` reducer from `cartSlice.js`: if a line with the id
exists and its quantity exceeds 1, decrement it; if it exists with quantity
at most 1, filter out every line with that id; otherwise do nothing. -/
def decreaseQuantity (cart : List CartLine) (id : String) : List CartLine :=
  match cart.find? (fun l => l._id = id) with
  | none => cart
  | some l =>
    if l.quantity > 1 then decrementFirst cart id
    else cart.filter (fun x => x._id ≠ id)

/-- The `clearCart` reducer: replace the collection by the empty list. -/
def clearCart (_cart : List CartLine) : List CartLine := []

/-- The cart invariant of the data model: ids are pairwise distinct (at
most one line per catalog item identifier) and every persisted quantity is
a positive integer. -/
def CartInv (cart : List CartLine) : Prop :=
  (cart.map (fun l => l._id)).Nodup ∧ ∀ l ∈ cart, 1 ≤ l.quantity

/-! ## Checkout sequencer (`Checkout.jsx` and `StripeCheckout.jsx`) -/

/-- The checkout form state of `Checkout.jsx` (`formData`). -/
structure CheckoutFormData where
  firstName : String
  lastName : String
  phone : String
  email : String
  address : String
  city : String
  zipCode : String
deriving DecidableEq, Repr

/-- The state the checkout page reads when submitting: the form, the chosen
payment method string, the cart from the store, and the stored token. -/
structure CheckoutState where
  formData : CheckoutFormData
  paymentMethod : String
  cartItems : List CartLine
  token : Option String
deriving DecidableEq, Repr

/-- The `subtotal` computation in `Checkout.jsx`: reduce over the cart summing
price times quantity, starting at 0. -/
def subtotal (cart : List CartLine) : ℚ :=
  cart.foldl (fun sum item => sum + item.price * item.quantity) 0

/-- The `totalPrice` computation in `Checkout.jsx`: subtotal plus a 5 percent tax. -/
def totalPrice (cart : List CartLine) : ℚ :=
  subtotal cart + subtotal cart * (5 / 100)

/-- The network calls the checkout flows can issue. -/
inductive NetEvent where
  | paymentIntentCreate (amount : ℤ) (currency : String)
  | confirmCardPayment (clientSecret : String)
  | orderCreate (paymentId : Option String)
deriving DecidableEq, Repr

/-- The user-visible outcome of a checkout run. -/
inductive CheckoutResult where
  | validationError (msg : String)
  | complete
  | orderError (msg : String)
  | paymentError (msg : String)
deriving DecidableEq, Repr

/-- Outcome of the `POST /api/orders` call as seen by `createOrder`:
either `res.ok` holds, or it fails with an optional server message, or the
request throws. -/
inductive OrderResp where
  | ok
  | fail (message : Option String)
  | thrown
deriving DecidableEq, Repr

/-- JavaScript `paymentId || null`: an absent or empty id becomes null. -/
def jsOrNull : Option String → Option String
  | none => none
  | some s => if s = "" then none else some s

/-- The `createOrder` function from `Checkout.jsx`: validation checks in source order
(token, required fields, cart), then the order network call; returns the
list of network calls made and the surfaced result. -/
def createOrder (st : CheckoutState) (paymentId : Option String)
    (resp : OrderResp) : List NetEvent × CheckoutResult :=
  if st.token = none then
    ([], .validationError "Please log in to place an order.")
  else if st.formData.firstName = "" ∨ st.formData.address = "" ∨
      st.formData.city = "" then
    ([], .validationError "Please fill all required fields.")
  else if st.cartItems = [] then
    ([], .validationError "Your cart is empty!")
  else
    ([.orderCreate (jsOrNull paymentId)],
      match resp with
      | .ok => .complete
      | .fail m => .orderError (m.getD "Failed to create order")
      | .thrown => .orderError "Something went wrong while creating the order")

/-- The `handleSubmit` handler from `Checkout.jsx` (the Complete Order button): reject
a missing payment method, redirect the online method to the Stripe form,
otherwise run `createOrder` with no payment id. -/
def handleSubmit (st : CheckoutState) (resp : OrderResp) :
    List NetEvent × CheckoutResult :=
  if st.paymentMethod = "" then
    ([], .validationError "Please select a payment method.")
  else if st.paymentMethod = "online" then
    ([], .validationError "Please complete your Stripe payment to place an order.")
  else createOrder st none resp

/-- Parsed body of the payment-intent response: the client secret as
`data?.clientSecret || data?.client_secret` (none when the field is absent),
or the request threw. -/
inductive IntentResp where
  | ok (clientSecret : Option String)
  | thrown
deriving DecidableEq, Repr

/-- The `paymentIntent` object of a Stripe confirmation result. -/
structure PaymentIntent where
  id : String
  status : String
deriving DecidableEq, Repr

/-- Result of `stripe.confirmCardPayment`: either `result.error` is set
(with an optional message), or it resolves with an optional
`result.paymentIntent`. -/
inductive ConfirmResp where
  | error (message : Option String)
  | done (intent : Option PaymentIntent)
deriving DecidableEq, Repr

/-- The `CheckoutForm.handleSubmit` handler from `StripeCheckout.jsx`, composed with
`handlePaymentSuccess` and `createOrder` from `Checkout.jsx`: create the
payment intent with `Math.round(totalAmount * 100)` cents in usd, extract
the client secret (throwing when absent or empty), confirm the card
payment, and on a succeeded intent with a truthy id hand over to
`createOrder`.  Returns all network calls made, in order, with the final
surfaced result. -/
def stripeCheckoutSubmit (st : CheckoutState) (totalAmount : ℚ)
    (ir : IntentResp) (cr : ConfirmResp) (resp : OrderResp) :
    List NetEvent × CheckoutResult :=
  let intentEv := NetEvent.paymentIntentCreate (round (totalAmount * 100)) "usd"
  match ir with
  | .thrown => ([intentEv], .paymentError "Payment failed: Unknown error")
  | .ok cs =>
    match jsOrNull cs with
    | none => ([intentEv], .paymentError "No clientSecret returned from server.")
    | some secret =>
      match cr with
      | .error m =>
        ([intentEv, .confirmCardPayment secret],
          .paymentError (m.getD "Payment failed"))
      | .done none =>
        ([intentEv, .confirmCardPayment secret],
          .paymentError "Payment status: unknown")
      | .done (some pi) =>
        if pi.status = "succeeded" then
          if pi.id = "" then
            ([intentEv, .confirmCardPayment secret],
              .paymentError "Payment confirmation failed. Please try again.")
          else
            let r := createOrder st (some pi.id) resp
            (intentEv :: .confirmCardPayment secret :: r.1, r.2)
        else
          ([intentEv, .confirmCardPayment secret],
            .paymentError ("Payment status: " ++ pi.status))

/-- A full card-method checkout run as wired in `Checkout.jsx`: the Stripe
form receives `totalAmount = totalPrice`. -/
def cardCheckoutRun (st : CheckoutState) (ir : IntentResp) (cr : ConfirmResp)
    (resp : OrderResp) : List NetEvent × CheckoutResult :=
  stripeCheckoutSubmit st (totalPrice st.cartItems) ir cr resp

/-- The fail-fast validation conditions of the spec: no session, an empty
required field, or an empty cart. -/
def ValidationFails (st : CheckoutState) : Prop :=
  st.token = none ∨ st.formData.firstName = "" ∨ st.formData.address = "" ∨
    st.formData.city = "" ∨ st.cartItems = []

/-! ## Session state (`Navbar.jsx`) and browser storage -/

/-- The browser durable key-value storage, as a partial map. -/
def Storage : Type := String → Option String

/-- The `localStorage.removeItem` operation. -/
def removeItem (store : Storage) (key : String) : Storage :=
  fun k => if k = key then none else store k

/-- The `handleLogout` handler from `Navbar.jsx`: remove the token, the user profile
and the cached orders list. -/
def handleLogout (store : Storage) : Storage :=
  removeItem (removeItem (removeItem store "token") "user") "orders"

/-- The authentication check of `Navbar.jsx`: truthiness of the stored
token (an empty string token is falsy in JavaScript). -/
def isLoggedIn (store : Storage) : Bool :=
  (jsOrNull (store "token")).isSome

/-! ## Catalog store (`productSlice.js` and the fetch in `SpecialOffer.jsx`) -/

/-- A raw catalog item as received from `GET /api/menu`, with the numeric
fields possibly absent (null). -/
structure RawItem where
  _id : String
  name : String
  description : String
  category : String
  image : String
  rating : Option ℚ
  popularity : Option ℚ
  price : Option ℚ
deriving DecidableEq, Repr

/-- A normalized product as stored in the catalog store. -/
structure Product where
  _id : String
  name : String
  description : String
  category : String
  image : String
  rating : ℚ
  popularity : ℚ
  price : ℚ
deriving DecidableEq, Repr

/-- The normalization in `fetchProducts`: replace an absent rating,
popularity or price by 0, keep the rest. -/
def normalizeItem (r : RawItem) : Product :=
  ⟨r._id, r.name, r.description, r.category, r.image,
    r.rating.getD 0, r.popularity.getD 0, r.price.getD 0⟩

/-- The `setProducts` reducer from `productSlice.js`: replace the collection. -/
def setProducts (_products : List Product) (payload : List Product) :
    List Product := payload

/-- Outcome of the catalog fetch as inspected by `fetchProducts`: a parsed
response with its `success` flag and its `data` field (`none` models a
`data` that is not an array), or a thrown request. -/
inductive FetchOutcome where
  | resp (success : Bool) (data : Option (List RawItem))
  | thrown
deriving DecidableEq, Repr

/-- The `fetchProducts` effect from `SpecialOffer.jsx`, as a transition on the product
collection paired with the local error state: only a successful response
whose data is an array dispatches `setProducts` with the normalized items;
every other outcome leaves the store untouched and sets an error string. -/
def fetchProducts (o : FetchOutcome) (products : List Product) :
    List Product × Option String :=
  match o with
  | .resp true (some arr) => (setProducts products (arr.map normalizeItem), none)
  | .resp true none => (products, some "Failed to load products")
  | .resp false _ => (products, some "Failed to load products")
  | .thrown => (products, some "Server not responding")

/-! ## Spec-worded cart add, for comparison with the reducer -/

/-- The cart `add` operation as the spec words it, with an explicit
quantity argument: increment an existing line by `quantity`, otherwise
insert a new line with that quantity.  Written from the spec text, to be
compared with `addToCart` from the source. -/
def add_spec : List CartLine → Item → ℕ → List CartLine
  | [], item, q => [⟨item._id, item.name, item.price, q⟩]
  | l :: ls, item, q =>
    if l._id = item._id then { l with quantity := l.quantity + q } :: ls
    else l :: add_spec ls item q

/-- Iterated `addToCart` of the same item. -/
def addTimes : ℕ → List CartLine → Item → List CartLine
  | 0, cart, _ => cart
  | n + 1, cart, item => addToCart (addTimes n cart item) item

/-- The `total` computation of `CartPage.jsx`: reduce over the cart items
summing price times quantity, starting from 0. -/
def total (cart : List CartLine) : ℚ :=
  cart.foldl (fun sum item => sum + item.price * item.quantity) 0

/-! ## Sample data reused by concrete instances -/

/-- A sample catalog item. -/
def sampleItem : Item := ⟨"a", "Pizza", 10⟩

/-- A sample cart line for `sampleItem` with quantity 2. -/
def sampleLine : CartLine := ⟨"a", "Pizza", 10, 2⟩

/-- A fully filled-in checkout form. -/
def sampleForm : CheckoutFormData :=
  ⟨"Ada", "Lovelace", "1", "ada@example.com", "Street 1", "Metropolis", "111"⟩

/-- A checkout state passing every validation condition, with the cash
method selected. -/
def sampleState : CheckoutState := ⟨sampleForm, "cod", [sampleLine], some "tok"⟩

/-! ## Theorems -/

/-- Folding the price-times-quantity sum from any accumulator adds the
mapped sum to it. -/
theorem foldl_price_qty (cart : List CartLine) (a : ℚ) :
    cart.foldl (fun sum item => sum + item.price * (item.quantity : ℚ)) a =
      a + (cart.map (fun l => l.price * (l.quantity : ℚ))).sum := by
  induction cart generalizing a with
  | nil => simp
  | cons l ls ih => rw [List.foldl_cons, ih, List.map_cons, List.sum_cons, add_assoc]

/-- C8: the cart total is the sum over all lines of denormalized price
times quantity; on the cart with lines (price 10, qty 2) and
(price 5.50, qty 3) it returns 36.50. -/
theorem total_is_sum (cart : List CartLine) :
    total cart = (cart.map (fun l => l.price * (l.quantity : ℚ))).sum ∧
    total [⟨"p1", "A", 10, 2⟩, ⟨"p2", "B", 11 / 2, 3⟩] = 73 / 2 := by
  constructor
  · simpa using foldl_price_qty cart 0
  · norm_num [total]

/-- C9: after logout the stored token, the user profile and the cached
order list are all cleared, and the authentication check returns false. -/
theorem logout_clears_session (store : Storage) :
    handleLogout store "token" = none ∧ handleLogout store "user" = none ∧
    handleLogout store "orders" = none ∧ isLoggedIn (handleLogout store) = false := by
  repeat constructor <;>
    simp [handleLogout, removeItem, isLoggedIn, jsOrNull]

/-- C10: on any catalog-fetch outcome that is not a successful response
carrying an array, the product collection is left unchanged. -/
theorem fetchProducts_failure_preserves (o : FetchOutcome) (ps : List Product)
    (h : ∀ arr, o ≠ .resp true (some arr)) :
    (fetchProducts o ps).1 = ps := by
  match o with
  | .thrown => rfl
  | .resp false _ => rfl
  | .resp true none => rfl
  | .resp true (some arr) => exact absurd rfl (h arr)

/-- Concrete instance of `fetchProducts_failure_preserves`: a thrown fetch
leaves a one-product store unchanged. -/
theorem fetchProducts_failure_preserves_witness :
    (fetchProducts .thrown [⟨"a", "Pizza", "d", "FOOD", "i.png", 4, 7, 10⟩]).1 =
      [⟨"a", "Pizza", "d", "FOOD", "i.png", 4, 7, 10⟩] :=
  fetchProducts_failure_preserves .thrown _ (fun arr h => by cases h)

/-- Adding an item keeps the id list when the id is present and appends the
new id otherwise. -/
theorem addToCart_map_id (cart : List CartLine) (item : Item) :
    (addToCart cart item).map (fun l => l._id) =
      if cart.any (fun l => l._id = item._id) = true
      then cart.map (fun l => l._id)
      else cart.map (fun l => l._id) ++ [item._id] := by
  induction cart with
  | nil => simp [addToCart, newCartLine]
  | cons a as ih =>
    by_cases h : a._id = item._id
    · simp [addToCart, h]
    · by_cases h2 : as.any (fun l => l._id = item._id) = true <;>
        simp [addToCart, h, h2, ih]

/-- Adding an item keeps every quantity positive. -/
theorem addToCart_quantity_pos (cart : List CartLine) (item : Item)
    (h : ∀ l ∈ cart, 1 ≤ l.quantity) :
    ∀ l ∈ addToCart cart item, 1 ≤ l.quantity := by
  induction cart with
  | nil => simp [addToCart, newCartLine]
  | cons a as ih =>
    intro l hl
    by_cases hid : a._id = item._id
    · simp [addToCart, hid] at hl
      rcases hl with h1 | h2
      · subst h1; simp
      · exact h l (List.mem_cons_of_mem a h2)
    · simp [addToCart, hid] at hl
      rcases hl with h1 | h2
      · subst h1; exact h l (List.mem_cons_self l as)
      · exact ih (fun x hx => h x (List.mem_cons_of_mem a hx)) l h2

/-- Decrementing the first matching line does not change the id list. -/
theorem decrementFirst_map_id (cart : List CartLine) (id : String) :
    (decrementFirst cart id).map (fun l => l._id) =
      cart.map (fun l => l._id) := by
  induction cart with
  | nil => rfl
  | cons a as ih =>
    by_cases h : a._id = id <;> simp [decrementFirst, h, ih]

/-- The first line matching an id, located by `find?`, splits the cart and
`decrementFirst` rewrites exactly that line. -/
theorem decrementFirst_decomp (cart : List CartLine) (id : String)
    (l : CartLine) (hf : cart.find? (fun x => x._id = id) = some l) :
    ∃ pre post, cart = pre ++ l :: post ∧ (∀ x ∈ pre, x._id ≠ id) ∧
      decrementFirst cart id =
        pre ++ { l with quantity := l.quantity - 1 } :: post := by
  induction cart with
  | nil => simp at hf
  | cons a as ih =>
    by_cases ha : a._id = id
    · rw [List.find?_cons_of_pos _ (by simp [ha])] at hf
      obtain rfl : a = l := by injection hf
      exact ⟨[], as, by simp, by simp, by simp [decrementFirst, ha]⟩
    · rw [List.find?_cons_of_neg _ (by simp [ha])] at hf
      obtain ⟨pre, post, h1, h2, h3⟩ := ih hf
      refine ⟨a :: pre, post, by simp [h1], ?_, by simp [decrementFirst, ha, h3]⟩
      intro x hx
      rcases List.mem_cons.mp hx with h4 | h4
      · subst h4; exact ha
      · exact h2 x h4

/-- Decrementing the first matching line keeps every quantity positive when
the matched line held at least 2. -/
theorem decrementFirst_quantity_pos (cart : List CartLine) (id : String)
    (l : CartLine) (hf : cart.find? (fun x => x._id = id) = some l)
    (hq2 : 2 ≤ l.quantity) (h : ∀ x ∈ cart, 1 ≤ x.quantity) :
    ∀ x ∈ decrementFirst cart id, 1 ≤ x.quantity := by
  obtain ⟨pre, post, h1, _h2, h3⟩ := decrementFirst_decomp cart id l hf
  rw [h3]
  intro x hx
  rcases List.mem_append.mp hx with h4 | h4
  · exact h x (h1 ▸ List.mem_append_left _ h4)
  · rcases List.mem_cons.mp h4 with h5 | h5
    · subst h5; simp; omega
    · exact h x (h1 ▸ List.mem_append_right _ (List.mem_cons_of_mem l h5))

/-- C4: every cart operation preserves the invariant of at most one line
per identifier with only positive quantities, on every invariant-satisfying
cart state. -/
theorem cart_ops_preserve_inv (cart : List CartLine) (item : Item)
    (id : String) (h : CartInv cart) :
    CartInv (addToCart cart item) ∧ CartInv (removeFromCart cart id) ∧
    CartInv (decreaseQuantity cart id) ∧ CartInv (clearCart cart) := by
  obtain ⟨hnd, hq⟩ := h
  have hfilter : ∀ p : CartLine → Bool, CartInv (cart.filter p) := by
    intro p
    constructor
    · exact ((cart.filter_sublist).map (fun l => l._id)).nodup hnd
    · intro l hl
      exact hq l (List.mem_of_mem_filter hl)
  refine ⟨⟨?_, addToCart_quantity_pos cart item hq⟩, hfilter _, ?_, ?_⟩
  · rw [addToCart_map_id]
    by_cases hany : cart.any (fun l => l._id = item._id) = true
    · simpa [hany] using hnd
    · rw [if_neg hany, List.nodup_append]
      refine ⟨hnd, List.nodup_singleton _, ?_⟩
      intro x hx hx2
      simp at hx2
      subst hx2
      obtain ⟨l, hl, hlid⟩ := List.mem_map.mp hx
      simp [List.any_eq_true] at hany
      exact hany l hl hlid
  · unfold decreaseQuantity
    cases hf : cart.find? (fun x => x._id = id) with
    | none => exact ⟨hnd, hq⟩
    | some l =>
      by_cases hgt : l.quantity > 1
      · simp only [hgt, if_true]
        refine ⟨?_, decrementFirst_quantity_pos cart id l hf (by omega) hq⟩
        rw [decrementFirst_map_id]
        exact hnd
      · simp only [hgt, if_false]
        exact hfilter _
  · exact ⟨List.nodup_nil, by simp [clearCart]⟩

/-- Concrete instance of `cart_ops_preserve_inv`: the four operations on a
one-line cart. -/
theorem cart_ops_preserve_inv_witness :
    CartInv (addToCart [sampleLine] sampleItem) ∧
    CartInv (removeFromCart [sampleLine] "a") ∧
    CartInv (decreaseQuantity [sampleLine] "a") ∧
    CartInv (clearCart [sampleLine]) :=
  cart_ops_preserve_inv [sampleLine] sampleItem "a"
    ⟨by decide, by decide⟩

/-- C7: decrement on an id present with quantity above 1 rewrites exactly
that line with one unit less; on an id present with quantity 1 it removes
every line with that id; on an absent id it leaves the cart unchanged. -/
theorem decreaseQuantity_cases (cart : List CartLine) (id : String)
    (l : CartLine) :
    (cart.find? (fun x => x._id = id) = some l → 1 < l.quantity →
      ∃ pre post, cart = pre ++ l :: post ∧ (∀ x ∈ pre, x._id ≠ id) ∧
        decreaseQuantity cart id =
          pre ++ { l with quantity := l.quantity - 1 } :: post) ∧
    (cart.find? (fun x => x._id = id) = some l → l.quantity = 1 →
      decreaseQuantity cart id = cart.filter (fun x => x._id ≠ id) ∧
      ∀ x ∈ decreaseQuantity cart id, x._id ≠ id) ∧
    (cart.find? (fun x => x._id = id) = none → decreaseQuantity cart id = cart) := by
  refine ⟨?_, ?_, ?_⟩
  · intro hf hq
    have hd := decrementFirst_decomp cart id l hf
    unfold decreaseQuantity
    rw [hf]
    simpa [hq] using hd
  · intro hf hq
    have heq : decreaseQuantity cart id = cart.filter (fun x => x._id ≠ id) := by
      unfold decreaseQuantity
      rw [hf]
      simp [hq]
    refine ⟨heq, ?_⟩
    rw [heq]
    intro x hx
    have := List.of_mem_filter hx
    simpa using this
  · intro hf
    unfold decreaseQuantity
    rw [hf]

/-- Concrete instance of `decreaseQuantity_cases`: decrementing the id of a
quantity-2 line. -/
theorem decreaseQuantity_cases_witness :
    ∃ pre post, [sampleLine] = pre ++ sampleLine :: post ∧
      (∀ x ∈ pre, x._id ≠ "a") ∧
      decreaseQuantity [sampleLine] "a" =
        pre ++ { sampleLine with quantity := sampleLine.quantity - 1 } :: post :=
  (decreaseQuantity_cases [sampleLine] "a" sampleLine).1 (by decide) (by decide)

/-- Adding an item absent from the cart appends a fresh quantity-1 line. -/
theorem addToCart_of_not_mem (cart : List CartLine) (item : Item)
    (h : ∀ l ∈ cart, l._id ≠ item._id) :
    addToCart cart item = cart ++ [newCartLine item] := by
  induction cart with
  | nil => rfl
  | cons a as ih =>
    have ha : a._id ≠ item._id := h a (List.mem_cons_self a as)
    simp only [addToCart, if_neg ha, List.cons_append, List.cons.injEq, true_and]
    exact ih (fun l hl => h l (List.mem_cons_of_mem a hl))

/-- Adding an item whose only line sits last increments that line. -/
theorem addToCart_append_last (cart : List CartLine) (item : Item) (q : ℕ)
    (h : ∀ l ∈ cart, l._id ≠ item._id) :
    addToCart (cart ++ [⟨item._id, item.name, item.price, q⟩]) item =
      cart ++ [⟨item._id, item.name, item.price, q + 1⟩] := by
  induction cart with
  | nil => simp [addToCart]
  | cons a as ih =>
    have ha : a._id ≠ item._id := h a (List.mem_cons_self a as)
    simp only [List.cons_append, addToCart, if_neg ha, List.cons.injEq, true_and]
    exact ih (fun l hl => h l (List.mem_cons_of_mem a hl))

/-- The first line matching the id of the added item, located by `find?`, splits
the cart and `addToCart` rewrites exactly that line. -/
theorem addToCart_decomp (cart : List CartLine) (item : Item) (l : CartLine)
    (hf : cart.find? (fun x => x._id = item._id) = some l) :
    ∃ pre post, cart = pre ++ l :: post ∧ (∀ x ∈ pre, x._id ≠ item._id) ∧
      addToCart cart item =
        pre ++ { l with quantity := l.quantity + 1 } :: post := by
  induction cart with
  | nil => simp at hf
  | cons a as ih =>
    by_cases ha : a._id = item._id
    · rw [List.find?_cons_of_pos _ (by simp [ha])] at hf
      obtain rfl : a = l := by injection hf
      exact ⟨[], as, by simp, by simp, by simp [addToCart, ha]⟩
    · rw [List.find?_cons_of_neg _ (by simp [ha])] at hf
      obtain ⟨pre, post, h1, h2, h3⟩ := ih hf
      refine ⟨a :: pre, post, by simp [h1], ?_, by simp [addToCart, ha, h3]⟩
      intro x hx
      rcases List.mem_cons.mp hx with h4 | h4
      · subst h4; exact ha
      · exact h2 x h4

/-- C3 counterexample: the reducer takes no quantity argument; for the
quantity 2 demanded by the claim, the cart produced by the code differs
from the cart the claim describes, because the code always inserts with
quantity 1. -/
theorem add_quantity_arg_counterexample :
    addToCart [] sampleItem ≠ add_spec [] sampleItem 2 ∧
    (addToCart [] sampleItem).map (fun l => l.quantity) = [1] ∧
    (add_spec [] sampleItem 2).map (fun l => l.quantity) = [2] := by
  refine ⟨?_, by decide, by decide⟩
  decide

/-- C3 amended: the reducer adds exactly 1 — it appends a quantity-1 line
for a fresh id, increments exactly the first line of a present id by 1,
and N iterated adds of a fresh item leave exactly one line for it carrying
quantity N. -/
theorem addToCart_unit_increment (cart : List CartLine) (item : Item)
    (n : ℕ) :
    ((∀ l ∈ cart, l._id ≠ item._id) →
      addToCart cart item = cart ++ [newCartLine item]) ∧
    (∀ l, cart.find? (fun x => x._id = item._id) = some l →
      ∃ pre post, cart = pre ++ l :: post ∧ (∀ x ∈ pre, x._id ≠ item._id) ∧
        addToCart cart item =
          pre ++ { l with quantity := l.quantity + 1 } :: post) ∧
    ((∀ l ∈ cart, l._id ≠ item._id) → 1 ≤ n →
      addTimes n cart item =
        cart ++ [⟨item._id, item.name, item.price, n⟩] ∧
      (addTimes n cart item).filter (fun x => x._id = item._id) =
        [⟨item._id, item.name, item.price, n⟩]) := by
  refine ⟨addToCart_of_not_mem cart item, addToCart_decomp cart item, ?_⟩
  intro h hn
  have key : ∀ m : ℕ, 1 ≤ m → addTimes m cart item =
      cart ++ [⟨item._id, item.name, item.price, m⟩] := by
    intro m hm
    induction m with
    | zero => omega
    | succ k ihk =>
      by_cases hk : 1 ≤ k
      · show addToCart (addTimes k cart item) item = _
        rw [ihk hk, addToCart_append_last cart item k h]
      · have hk0 : k = 0 := by omega
        subst hk0
        show addToCart cart item = _
        rw [addToCart_of_not_mem cart item h]
        rfl
  refine ⟨key n hn, ?_⟩
  rw [key n hn, List.filter_append]
  have h1 : cart.filter (fun x => x._id = item._id) = [] := by
    rw [List.filter_eq_nil_iff]
    intro a ha
    simpa using h a ha
  rw [h1]
  simp

/-- Concrete instance of `addToCart_unit_increment`: three adds of a fresh
item on the empty cart give one quantity-3 line. -/
theorem addToCart_unit_increment_witness :
    addTimes 3 [] sampleItem =
      [⟨sampleItem._id, sampleItem.name, sampleItem.price, 3⟩] ∧
    (addTimes 3 [] sampleItem).filter (fun x => x._id = sampleItem._id) =
      [⟨sampleItem._id, sampleItem.name, sampleItem.price, 3⟩] := by
  have h := (addToCart_unit_increment [] sampleItem 3).2.2
    (by simp) (by omega)
  simpa using h

/-- When any validation condition fails, `createOrder` makes no network
call and surfaces a validation error. -/
theorem createOrder_of_validationFails (st : CheckoutState)
    (pid : Option String) (resp : OrderResp) (h : ValidationFails st) :
    ∃ m, createOrder st pid resp = ([], .validationError m) := by
  unfold createOrder
  split_ifs with h1 h2 h3
  · exact ⟨_, rfl⟩
  · exact ⟨_, rfl⟩
  · exact ⟨_, rfl⟩
  · rcases h with h4 | h4 | h4 | h4 | h4
    · exact absurd h4 h1
    · exact absurd (Or.inl h4) h2
    · exact absurd (Or.inr (Or.inl h4)) h2
    · exact absurd (Or.inr (Or.inr h4)) h2
    · exact absurd h4 h3

/-- Evaluation of the Stripe submit on a returned secret and a succeeded
intent with a truthy id: both payment calls happen, then control passes to
`createOrder`. -/
theorem stripe_eval_success (st : CheckoutState) (T : ℚ) (s : String)
    (pi : PaymentIntent) (resp : OrderResp) (hs : s ≠ "")
    (hst : pi.status = "succeeded") (hid : pi.id ≠ "") :
    stripeCheckoutSubmit st T (.ok (some s)) (.done (some pi)) resp =
      (NetEvent.paymentIntentCreate (round (T * 100)) "usd" ::
        NetEvent.confirmCardPayment s :: (createOrder st (some pi.id) resp).1,
       (createOrder st (some pi.id) resp).2) := by
  simp [stripeCheckoutSubmit, jsOrNull, hs, hst, hid]

/-- Evaluation of the Stripe submit on a returned secret and a failed
confirmation: the run stops after the two payment calls. -/
theorem stripe_eval_error (st : CheckoutState) (T : ℚ) (s : String)
    (m : Option String) (resp : OrderResp) (hs : s ≠ "") :
    stripeCheckoutSubmit st T (.ok (some s)) (.error m) resp =
      ([.paymentIntentCreate (round (T * 100)) "usd", .confirmCardPayment s],
        .paymentError (m.getD "Payment failed")) := by
  simp [stripeCheckoutSubmit, jsOrNull, hs]

/-- C1 counterexample: a card checkout on a state whose validation fails
(empty first name) still creates the payment intent and confirms the card
payment; the validation error surfaces only afterwards, from
`createOrder`. -/
theorem card_payment_before_validation_counterexample :
    ValidationFails ⟨{ sampleForm with firstName := "" }, "online",
        [sampleLine], some "tok"⟩ ∧
    cardCheckoutRun ⟨{ sampleForm with firstName := "" }, "online",
        [sampleLine], some "tok"⟩
        (.ok (some "sec")) (.done (some ⟨"pi_1", "succeeded"⟩)) .ok =
      ([.paymentIntentCreate 2100 "usd", .confirmCardPayment "sec"],
        .validationError "Please fill all required fields.") := by
  constructor
  · exact Or.inr (Or.inl rfl)
  · unfold cardCheckoutRun
    rw [stripe_eval_success _ _ _ _ _ (by decide) rfl (by decide)]
    norm_num [createOrder, totalPrice, subtotal, sampleLine, sampleForm,
      round_eq]
    simp

/-- C1 amended: validation gates only order creation.  When any validation
condition fails, the direct order call and the cash submit make no network
call and the card flow never reaches order creation, although the card
payment calls of the card flow are not prevented. -/
theorem validation_gates_order_creation (st : CheckoutState)
    (pid : Option String) (resp : OrderResp) (ir : IntentResp)
    (cr : ConfirmResp) (h : ValidationFails st) :
    (createOrder st pid resp).1 = [] ∧
    (∃ m, (createOrder st pid resp).2 = .validationError m) ∧
    (handleSubmit st resp).1 = [] ∧
    (∀ p, NetEvent.orderCreate p ∉ (cardCheckoutRun st ir cr resp).1) := by
  obtain ⟨m, hm⟩ := createOrder_of_validationFails st pid resp h
  obtain ⟨m2, hm2⟩ := createOrder_of_validationFails st none resp h
  refine ⟨by rw [hm], ⟨m, by rw [hm]⟩, ?_, ?_⟩
  · unfold handleSubmit
    split_ifs <;> simp [hm2]
  · intro p
    unfold cardCheckoutRun stripeCheckoutSubmit
    cases ir with
    | thrown => simp
    | ok cs =>
      cases hcs : jsOrNull cs with
      | none => simp [hcs]
      | some secret =>
        cases cr with
        | error m3 => simp [hcs]
        | done oi =>
          cases oi with
          | none => simp [hcs]
          | some pi =>
            by_cases hst : pi.status = "succeeded"
            · by_cases hid : pi.id = ""
              · simp [hcs, hst, hid]
              · obtain ⟨m3, hm3⟩ :=
                  createOrder_of_validationFails st (some pi.id) resp h
                simp [hcs, hst, hid, hm3]
            · simp [hcs, hst]

/-- Concrete instance of `validation_gates_order_creation`: an empty-cart
state with a session and a filled form. -/
theorem validation_gates_order_creation_witness :
    (createOrder ⟨sampleForm, "cod", [], some "tok"⟩ none .ok).1 = [] ∧
    (∃ m, (createOrder ⟨sampleForm, "cod", [], some "tok"⟩ none .ok).2 =
      .validationError m) ∧
    (handleSubmit ⟨sampleForm, "cod", [], some "tok"⟩ .ok).1 = [] ∧
    (∀ p, NetEvent.orderCreate p ∉
      (cardCheckoutRun ⟨sampleForm, "cod", [], some "tok"⟩
        (.ok (some "sec")) (.done (some ⟨"pi_1", "succeeded"⟩)) .ok).1) :=
  validation_gates_order_creation ⟨sampleForm, "cod", [], some "tok"⟩
    none .ok (.ok (some "sec")) (.done (some ⟨"pi_1", "succeeded"⟩))
    (Or.inr (Or.inr (Or.inr (Or.inr rfl))))

/-- C5 counterexample: a checkout submission with an empty cart and a
filled-in form but no active session fails with the login validation error,
not the cart-empty one, because the token check precedes the cart check. -/
theorem empty_cart_error_counterexample :
    handleSubmit ⟨sampleForm, "cod", [], none⟩ .ok =
      ([], .validationError "Please log in to place an order.") ∧
    CheckoutResult.validationError "Please log in to place an order." ≠
      CheckoutResult.validationError "Your cart is empty!" := by
  constructor
  · decide
  · decide

/-- C5 amended: a checkout submission with an empty cart, a filled-in form,
an active session and the cash method selected fails with the cart-empty
validation error and performs zero network calls. -/
theorem empty_cart_checkout (st : CheckoutState) (resp : OrderResp)
    (htok : st.token ≠ none) (hm : st.paymentMethod = "cod")
    (hf : ¬(st.formData.firstName = "" ∨ st.formData.address = "" ∨
      st.formData.city = "")) (hc : st.cartItems = []) :
    handleSubmit st resp = ([], .validationError "Your cart is empty!") := by
  unfold handleSubmit createOrder
  rw [hm]
  simp [htok, hf, hc]

/-- Concrete instance of `empty_cart_checkout`. -/
theorem empty_cart_checkout_witness :
    handleSubmit ⟨sampleForm, "cod", [], some "tok"⟩ .ok =
      ([], .validationError "Your cart is empty!") :=
  empty_cart_checkout ⟨sampleForm, "cod", [], some "tok"⟩ .ok
    (by decide) rfl (by decide) rfl

/-- C6: a cash checkout on a state passing every validation condition calls
order creation exactly once with a null payment id, and reaches the
complete result when the order call succeeds. -/
theorem cash_happy_path (st : CheckoutState)
    (hm : st.paymentMethod = "cod") (htok : st.token ≠ none)
    (hf : ¬(st.formData.firstName = "" ∨ st.formData.address = "" ∨
      st.formData.city = "")) (hc : st.cartItems ≠ []) :
    handleSubmit st .ok = ([.orderCreate none], .complete) ∧
    ∀ resp, (handleSubmit st resp).1 = [.orderCreate none] := by
  constructor
  · unfold handleSubmit createOrder
    rw [hm]
    simp [htok, hf, hc, jsOrNull]
  · intro resp
    unfold handleSubmit createOrder
    rw [hm]
    simp [htok, hf, hc, jsOrNull]

/-- Concrete instance of `cash_happy_path`. -/
theorem cash_happy_path_witness :
    handleSubmit sampleState .ok = ([.orderCreate none], .complete) :=
  (cash_happy_path sampleState rfl (by decide) (by decide) (by decide)).1

/-- C2: on a validation-passing state, the card flow first creates the
payment intent with `round(total * 100)` cents in usd, then confirms the
card with the returned client secret, and calls order creation, carrying
the confirmation id, exactly when confirmation reported a succeeded intent
with a truthy id; on a confirmation failure or a non-succeeded status the
run stops after the two payment calls. -/
theorem card_happy_path (st : CheckoutState) (s : String)
    (pi : PaymentIntent) (resp : OrderResp) (m : Option String)
    (hs : s ≠ "") (htok : st.token ≠ none)
    (hf : ¬(st.formData.firstName = "" ∨ st.formData.address = "" ∨
      st.formData.city = "")) (hc : st.cartItems ≠ []) :
    (pi.status = "succeeded" → pi.id ≠ "" →
      (cardCheckoutRun st (.ok (some s)) (.done (some pi)) resp).1 =
        [.paymentIntentCreate (round (totalPrice st.cartItems * 100)) "usd",
         .confirmCardPayment s, .orderCreate (some pi.id)]) ∧
    ((cardCheckoutRun st (.ok (some s)) (.error m) resp).1 =
      [.paymentIntentCreate (round (totalPrice st.cartItems * 100)) "usd",
       .confirmCardPayment s]) ∧
    (pi.status ≠ "succeeded" →
      (cardCheckoutRun st (.ok (some s)) (.done (some pi)) resp).1 =
        [.paymentIntentCreate (round (totalPrice st.cartItems * 100)) "usd",
         .confirmCardPayment s]) ∧
    (∀ ir cr p, NetEvent.orderCreate p ∈ (cardCheckoutRun st ir cr resp).1 →
      ∃ q, cr = .done (some q) ∧ q.status = "succeeded" ∧ q.id ≠ "" ∧
        p = some q.id) := by
  refine ⟨?_, ?_, ?_, ?_⟩
  · intro hst hid
    unfold cardCheckoutRun
    rw [stripe_eval_success st _ s pi resp hs hst hid]
    simp [createOrder, htok, hf, hc, jsOrNull, hid]
  · unfold cardCheckoutRun
    rw [stripe_eval_error st _ s m resp hs]
  · intro hst
    unfold cardCheckoutRun stripeCheckoutSubmit
    simp [jsOrNull, hs, hst]
  · intro ir cr p hp
    unfold cardCheckoutRun stripeCheckoutSubmit at hp
    cases ir with
    | thrown => simp at hp
    | ok cs =>
      cases hcs : jsOrNull cs with
      | none => simp [hcs] at hp
      | some secret =>
        cases cr with
        | error m3 => simp [hcs] at hp
        | done oi =>
          cases oi with
          | none => simp [hcs] at hp
          | some q =>
            by_cases hst : q.status = "succeeded"
            · by_cases hid : q.id = ""
              · simp [hcs, hst, hid] at hp
              · simp [hcs, hst, hid, createOrder, htok, hf, hc] at hp
                refine ⟨q, rfl, hst, hid, ?_⟩
                rw [hp]
                simp [jsOrNull, hid]
            · simp [hcs, hst] at hp

/-- Concrete instance of `card_happy_path`: the succeeded-confirmation
trace. -/
theorem card_happy_path_witness :
    (cardCheckoutRun ⟨sampleForm, "online", [sampleLine], some "tok"⟩
      (.ok (some "sec")) (.done (some ⟨"pi_1", "succeeded"⟩)) .ok).1 =
      [.paymentIntentCreate (round (totalPrice [sampleLine] * 100)) "usd",
       .confirmCardPayment "sec", .orderCreate (some "pi_1")] :=
  (card_happy_path ⟨sampleForm, "online", [sampleLine], some "tok"⟩ "sec"
    ⟨"pi_1", "succeeded"⟩ .ok none (by decide) (by decide) (by decide)
    (by decide)).1 rfl (by decide)
